import Mathlib

/-!
Shallow embedding of `src/app.py` (API de leitura de exames).

Coordinates coming from the layout service are real-valued page coordinates;
they are modelled as rationals (`ℚ`).  A selection mark or a text line carries
the first vertex of its polygon: `polygon[0]` is the x coordinate and
`polygon[1]` the y coordinate, which is exactly what the code reads.

The OCR layout service and the NLP resolver are black boxes per the spec;
they enter the embedding as explicit parameters recording their outcome, and
the pipeline records how many times each external AI service was invoked.
Of `base64.b64decode`, the exception-relevant structure is modelled
concretely — the ASCII-encoding step of a string argument (plain
`ValueError` on non-ASCII input, uncaught by the endpoint) and the
`TypeError` for non-string arguments (caught) — while the base64 payload
decoding proper stays an external parameter whose failure is a
`binascii.Error` (caught).  Calling `.get` on a truthy non-dict value
raises an `AttributeError` that escapes the route handler; Flask then
answers 500.
-/

/-- A selection mark as returned by the layout service: position of the first
polygon vertex and a state string (`"selected"` or `"unselected"`). -/
structure SelectionMark where
  x : ℚ
  y : ℚ
  state : String

/-- A text line as returned by the layout service: position of the first
polygon vertex and its string content. -/
structure TextLine where
  x : ℚ
  y : ℚ
  content : String

/-- The dictionary appended to `itens_selecionados` in
`extrair_exames_do_documento`: associated text plus the position of the
winning line. -/
structure AssociatedItem where
  texto : String
  pos_x : ℚ
  pos_y : ℚ

/-- First page geometry of an OCR result: page width, selection marks and
text lines. -/
structure Page where
  width : ℚ
  selection_marks : List SelectionMark
  lines : List TextLine

/-- One step of the inner loop of `extrair_exames_do_documento`
(lines 77-83 of `src/app.py`): the accumulator holds
`(menor_distancia, texto_associado, linha_associada)`; the initial Python
state `(inf, None, None)` is modelled as `none`, so the first candidate always
replaces it (`dist_total < inf`). -/
def scanLine (mark : SelectionMark) (acc : Option (ℚ × String × TextLine))
    (line : TextLine) : Option (ℚ × String × TextLine) :=
  let dist_y := |mark.y - line.y|
  if dist_y < 20 then
    let dist_x := |mark.x - line.x|
    let dist_total := dist_y + dist_x / 10
    match acc with
    | none => some (dist_total, line.content, line)
    | some (d, t, l) =>
        if dist_total < d then some (dist_total, line.content, line)
        else some (d, t, l)
  else acc

/-- The whole inner loop `for line in page.lines` of
`extrair_exames_do_documento`. -/
def bestMatch (mark : SelectionMark) (lines : List TextLine) :
    Option (ℚ × String × TextLine) :=
  lines.foldl (scanLine mark) none

/-- The body of the `for mark in page.selection_marks` loop: for a selected
mark run the inner loop and, when `texto_associado and linha_associada` is
truthy (the text is non-empty), produce the associated item with the winning
line's position. -/
def associateMark (lines : List TextLine) (mark : SelectionMark) :
    Option AssociatedItem :=
  if mark.state = "selected" then
    match bestMatch mark lines with
    | some (_, t, l) => if t ≠ "" then some ⟨t, l.x, l.y⟩ else none
    | none => none
  else none

/-- The SelectionAssociator: the `if page.selection_marks and page.lines`
guard (both truthy, i.e. non-empty) around both loops, accumulating
`itens_selecionados`. -/
def associate (marks : List SelectionMark) (lines : List TextLine) :
    List AssociatedItem :=
  if marks.isEmpty || lines.isEmpty then []
  else marks.filterMap (associateMark lines)

/-- Comparison used by the two `sorted(..., key=lambda x: x['pos_y'])` calls. -/
def byY (a b : AssociatedItem) : Bool :=
  a.pos_y ≤ b.pos_y

/-- The ReadingOrderReconstructor (lines 91-94 of `src/app.py`): split at
`page.width / 2`, sort each column by `pos_y` (Python `sorted` is a stable
merge sort), concatenate left then right, and keep the texts. -/
def reorder (items : List AssociatedItem) (width : ℚ) : List String :=
  let ponto_medio_x := width / 2
  let coluna_esquerda :=
    (items.filter (fun i => i.pos_x < ponto_medio_x)).mergeSort byY
  let coluna_direita :=
    (items.filter (fun i => i.pos_x ≥ ponto_medio_x)).mergeSort byY
  (coluna_esquerda ++ coluna_direita).map AssociatedItem.texto

/-- The outcome of the layout-service call made at the top of
`extrair_exames_do_documento`: either the call raised (the message is
re-raised to the endpoint) or it returned a list of pages. -/
inductive OcrResult where
  | failure (msg : String)
  | success (pages : List Page)

/-- The function `extrair_exames_do_documento` of `src/app.py`, applied to
the outcome of the layout-service call: a raised error propagates; no page
returns `[]`; otherwise the first page's geometry is associated and
reordered. -/
def extrair_exames_do_documento (ocr : OcrResult) : Except String (List String) :=
  match ocr with
  | .failure e => .error e
  | .success [] => .ok []
  | .success (page :: _) =>
      let itens_selecionados := associate page.selection_marks page.lines
      .ok (reorder itens_selecionados page.width)

/-! ## Claim-side (spec-side) definitions for the association refinement -/

/-- Spec wording: a line is a candidate for a mark when its vertical distance
is below the threshold `dy < 20`. -/
def isCandidate (mark : SelectionMark) (line : TextLine) : Prop :=
  |mark.y - line.y| < 20

instance (mark : SelectionMark) (line : TextLine) :
    Decidable (isCandidate mark line) := by
  unfold isCandidate; infer_instance

/-- Spec wording: `score = dy + dx/10`. -/
def score (mark : SelectionMark) (line : TextLine) : ℚ :=
  |mark.y - line.y| + |mark.x - line.x| / 10

/-- Spec wording for the winning candidate: `w` occurs in the line list, is
a candidate, every candidate strictly before it scores strictly worse (so on
equal minimal scores the first candidate in iteration order wins), and every
candidate after it scores no better. -/
def IsWinner (mark : SelectionMark) (lines : List TextLine) (w : TextLine) : Prop :=
  ∃ pre post, lines = pre ++ w :: post ∧ isCandidate mark w ∧
    (∀ l ∈ pre, isCandidate mark l → score mark w < score mark l) ∧
    (∀ l ∈ post, isCandidate mark l → score mark w ≤ score mark l)

/-! ## Python string helpers used by the endpoint -/

/-- Characters stripped by Python `str.strip()` (ASCII whitespace as relevant
to this pipeline). -/
def isPySpace (c : Char) : Bool :=
  c = ' ' || c = '\t' || c = '\n' || c = '\r' || c = '\x0b' || c = '\x0c'

/-- Python `str.strip()`: drop leading and trailing whitespace. -/
def pyStrip (s : String) : String :=
  ⟨((s.data.dropWhile isPySpace).reverse.dropWhile isPySpace).reverse⟩

/-- A character `str.encode("ascii")` accepts: code point below 128. -/
def pyIsAscii (c : Char) : Bool :=
  c.toNat < 128

/-- Python `str.split(sep)` restricted to the single-character separator
`'\n'`: split on every newline, keeping empty fields. -/
def splitNlChars : List Char → List (List Char)
  | [] => [[]]
  | c :: cs =>
      if c = '\n' then [] :: splitNlChars cs
      else
        match splitNlChars cs with
        | [] => [[c]]
        | h :: t => (c :: h) :: t

/-- Python `s.split('\n')` on strings. -/
def pySplitNl (s : String) : List String :=
  (splitNlChars s.data).map (fun l => ⟨l⟩)

/-- Joining character lists with a newline between consecutive fields
(inverse of `splitNlChars`). -/
def joinNlChars : List (List Char) → List Char
  | [] => []
  | [x] => x
  | x :: y :: t => x ++ '\n' :: joinNlChars (y :: t)

/-- Joining strings with newlines. -/
def joinNl (ls : List String) : String :=
  ⟨joinNlChars (ls.map String.data)⟩

/-! ## The HTTP endpoint -/

/-- Python values as far as the endpoint inspects them: `data.get` results
and their truthiness. -/
inductive PyVal where
  | pynone
  | pybool (b : Bool)
  | pyint (n : Int)
  | pystr (s : String)
  | pydict (entries : List (String × PyVal))
  | pylist (size : Nat)

/-- Python truthiness of the modelled values (`None`, `False`, `0`, `""`,
`{}` and `[]` are falsy). -/
def PyVal.truthy : PyVal → Bool
  | .pynone => false
  | .pybool b => b
  | .pyint n => n != 0
  | .pystr s => s != ""
  | .pydict es => !es.isEmpty
  | .pylist n => n != 0

/-- Python `dict.get(k)` on the entries of a dict: the value under the key,
`None` when absent.  `.get` only exists on dicts; the endpoint models the
`AttributeError` raised by `.get` on a non-dict value separately. -/
def dictGet (entries : List (String × PyVal)) (k : String) : PyVal :=
  match entries.find? (fun p => p.1 = k) with
  | some p => p.2
  | none => .pynone

/-- Python type names, as interpolated into exception messages. -/
def pyTypeName : PyVal → String
  | .pynone => "NoneType"
  | .pybool _ => "bool"
  | .pyint _ => "int"
  | .pystr _ => "str"
  | .pydict _ => "dict"
  | .pylist _ => "list"

/-- Message of the `AttributeError` raised by calling `.get` on a non-dict
value; the exception escapes the route handler. -/
def attrErrGet (v : PyVal) : String :=
  "\x27" ++ pyTypeName v ++ "\x27 object has no attribute \x27get\x27"

/-- Rendering of a Python value inside an f-string, as used by
`f"image/{doc_type}"`. -/
def pyToStr : PyVal → String
  | .pynone => "None"
  | .pybool b => if b then "True" else "False"
  | .pyint n => toString n
  | .pystr s => s
  | .pydict _ => "dict"
  | .pylist _ => "list"

/-- Line 167 of `src/app.py`:
`content_type = f"image/{doc_type}" if doc_type != "pdf" else "application/pdf"`. -/
def contentType (doc_type : PyVal) : String :=
  match doc_type with
  | .pystr "pdf" => "application/pdf"
  | t => "image/" ++ pyToStr t

/-- Behaviour of the external collaborators during one request.
`binasciiDecode` is `binascii.a2b_base64` applied to the ASCII encoding of
the content string — the part of `base64.b64decode` beyond this embedding;
its `.error` is the message of the raised `binascii.Error` (caught at line
168 of `src/app.py`).  The ASCII-encoding step of `b64decode` (whose plain
`ValueError` is **not** caught) and the `TypeError` for a non-string
argument (caught) are modelled concretely in the endpoint. -/
structure Externals where
  binasciiDecode : String → Except String (List Nat)
  ocr : List Nat → String → OcrResult
  nlp : List String → Except String String

/-- Body of a response sent back for one request.  `uncaughtException` is an
exception that line 168 and the `try` at lines 172-195 do not catch: it
escapes the route handler and Flask answers with its default 500 error
page. -/
inductive RespBody where
  | errorMsg (msg : String)
  | concluido (attendant_id pixeon_id : PyVal) (message : String)
  | sucesso (attendant_id pixeon_id : PyVal) (resultado_mnemonicos : List String)
  | uncaughtException (msg : String)

/-- A response: body plus HTTP status code. -/
structure Resp where
  body : RespBody
  code : Nat

/-- Result of one request: the response and how many times each external AI
service was called. -/
structure Outcome where
  resp : Resp
  ocrCalls : Nat
  nlpCalls : Nat

/-- The endpoint `processar_documento_endpoint` of `src/app.py`, with the
external collaborators passed explicitly.  `data` is the parsed JSON body
(`None`-like when absent or falsy).  `.get` on a truthy non-dict `data`
(line 151) or `document` (line 158) raises an `AttributeError` that escapes
the handler (500).  `base64.b64decode` at line 166 encodes a string content
to ASCII first: a non-ASCII string raises a plain `ValueError`, which line
168 (catching only `binascii.Error` and `TypeError`) does not catch (500);
an ASCII string goes to `binascii.a2b_base64` whose `binascii.Error` is
caught (400); a truthy non-string content raises a caught `TypeError`
(400). -/
def processar_documento_endpoint (ext : Externals) (data : PyVal) : Outcome :=
  if ¬ data.truthy then
    ⟨⟨.errorMsg "Requisição inválida. Corpo deve ser um JSON.", 400⟩, 0, 0⟩
  else
    match data with
    | .pydict dataEntries =>
      let attendant_id := dictGet dataEntries "attendant_id"
      let pixeon_id := dictGet dataEntries "pixeon_id"
      let document := dictGet dataEntries "document"
      if ¬ (attendant_id.truthy && pixeon_id.truthy && document.truthy) then
        ⟨⟨.errorMsg "Campos \x27attendant_id\x27, \x27pixeon_id\x27 e \x27document\x27 são obrigatórios.", 400⟩, 0, 0⟩
      else
        match document with
        | .pydict docEntries =>
          let doc_type := dictGet docEntries "type"
          let doc_content_b64 := dictGet docEntries "content"
          if ¬ (doc_type.truthy && doc_content_b64.truthy) then
            ⟨⟨.errorMsg "Campos \x27type\x27 e \x27content\x27 dentro de \x27document\x27 são obrigatórios.", 400⟩, 0, 0⟩
          else
            match doc_content_b64 with
            | .pystr s =>
              if s.data.all pyIsAscii then
                match ext.binasciiDecode s with
                | .error e =>
                    ⟨⟨.errorMsg ("String base64 inválida. Detalhes: " ++ e), 400⟩, 0, 0⟩
                | .ok image_bytes =>
                    let content_type := contentType doc_type
                    match extrair_exames_do_documento (ext.ocr image_bytes content_type) with
                    | .error e =>
                        ⟨⟨.errorMsg ("Ocorreu um erro interno durante o processamento de IA. Detalhes: " ++ e), 500⟩, 1, 0⟩
                    | .ok [] =>
                        ⟨⟨.concluido attendant_id pixeon_id
                            "Nenhum exame selecionado foi encontrado no documento.", 200⟩, 1, 0⟩
                    | .ok (exame :: resto) =>
                        match ext.nlp (exame :: resto) with
                        | .error e =>
                            ⟨⟨.errorMsg ("Ocorreu um erro interno durante o processamento de IA. Detalhes: " ++ e), 500⟩, 1, 1⟩
                        | .ok resultado_final =>
                            ⟨⟨.sucesso attendant_id pixeon_id
                                (pySplitNl (pyStrip resultado_final)), 200⟩, 1, 1⟩
              else
                ⟨⟨.uncaughtException
                    "string argument should contain only ASCII characters", 500⟩, 0, 0⟩
            | v =>
                ⟨⟨.errorMsg ("String base64 inválida. Detalhes: argument should be a bytes-like object or ASCII string, not \x27"
                    ++ pyTypeName v ++ "\x27"), 400⟩, 0, 0⟩
        | v => ⟨⟨.uncaughtException (attrErrGet v), 500⟩, 0, 0⟩
    | v => ⟨⟨.uncaughtException (attrErrGet v), 500⟩, 0, 0⟩

/-! ## Concrete request and geometry scenarios used by the claims -/

/-- Geometry of the spec's worked example: one selected mark at (5,100). -/
def markExemplo : SelectionMark := ⟨5, 100, "selected"⟩

/-- The near line of the worked example, at (5,100). -/
def linhaPerto : TextLine := ⟨5, 100, "Exame A"⟩

/-- The far line of the worked example, at (500,100). -/
def linhaLonge : TextLine := ⟨500, 100, "Exame B"⟩

/-- Externals whose base64 stage raises a `binascii.Error` (the message is
the one CPython gives a 3-character payload). -/
def extDecodeFalha : Externals :=
  ⟨fun _ => .error "Incorrect padding",
   fun _ _ => .success [], fun _ => .ok ""⟩

/-- Document entries whose content `"QQ="` is ASCII but incorrectly
padded base64. -/
def docMalPreenchido : List (String × PyVal) :=
  [("type", .pystr "png"), ("content", .pystr "QQ=")]

/-- Request entries that are valid except for the base64 payload. -/
def entriesValida : List (String × PyVal) :=
  [("attendant_id", .pystr "a1"), ("pixeon_id", .pystr "p1"),
    ("document", .pydict docMalPreenchido)]

def extTrivial : Externals :=
  ⟨fun _ => .ok [], fun _ _ => .success [], fun _ => .ok ""⟩

/-- Document entries whose content `"ção"` is a non-ASCII string — not
valid base64, and its decode raises an uncaught `ValueError`. -/
def docNaoAscii : List (String × PyVal) :=
  [("type", .pystr "png"), ("content", .pystr "ção")]

/-- Request entries that are valid except that the content string is
non-ASCII. -/
def entriesNaoAscii : List (String × PyVal) :=
  [("attendant_id", .pystr "a1"), ("pixeon_id", .pystr "p1"),
    ("document", .pydict docNaoAscii)]

/-- Request entries with present-but-falsy fields: a zero id, an empty id
string and an empty document dict. -/
def camposFalsy : List (String × PyVal) :=
  [("attendant_id", .pyint 0), ("pixeon_id", .pystr ""),
    ("document", .pydict [])]

def extSemSelecionado : Externals :=
  ⟨fun _ => .ok [65],
   fun _ _ => .success [⟨100, [⟨0, 0, "unselected"⟩], [⟨0, 0, "Hemograma"⟩]⟩],
   fun _ => .ok ""⟩

/-- Document entries with a decodable content (`"QQ=="` is the base64 of
one byte, 65). -/
def docPng : List (String × PyVal) :=
  [("type", .pystr "png"), ("content", .pystr "QQ==")]

/-- A fully valid request body. -/
def entriesComDocumento : List (String × PyVal) :=
  [("attendant_id", .pystr "a1"), ("pixeon_id", .pystr "p1"),
    ("document", .pydict docPng)]

def extSemPagina : Externals :=
  ⟨fun _ => .ok [65], fun _ _ => .success [], fun _ => .ok ""⟩

/-- Page with one selected mark right on one text line. -/
def paginaUmaLinha : Page := ⟨100, [⟨0, 0, "selected"⟩], [⟨0, 0, "Hemograma"⟩]⟩

def extUmaLinha : Externals :=
  ⟨fun _ => .ok [65], fun _ _ => .success [paginaUmaLinha], fun _ => .ok "a\n"⟩

/-! ## Helper lemmas about the association loop -/

lemma scanLine_not_cand {mark : SelectionMark} {line : TextLine}
    (h : ¬ isCandidate mark line) (acc : Option (ℚ × String × TextLine)) :
    scanLine mark acc line = acc := by
  unfold isCandidate at h
  simp only [scanLine]
  rw [if_neg h]

lemma scanLine_none_cand {mark : SelectionMark} {line : TextLine}
    (h : isCandidate mark line) :
    scanLine mark none line = some (score mark line, line.content, line) := by
  unfold isCandidate at h
  simp only [scanLine, score]
  rw [if_pos h]

lemma scanLine_some_keep {mark : SelectionMark} {line : TextLine}
    {d : ℚ} {t : String} {u : TextLine}
    (h : isCandidate mark line) (hle : ¬ score mark line < d) :
    scanLine mark (some (d, t, u)) line = some (d, t, u) := by
  unfold isCandidate at h
  unfold score at hle
  simp only [scanLine]
  rw [if_pos h]
  rw [if_neg hle]

lemma scanLine_some_repl {mark : SelectionMark} {line : TextLine}
    {d : ℚ} {t : String} {u : TextLine}
    (h : isCandidate mark line) (hlt : score mark line < d) :
    scanLine mark (some (d, t, u)) line = some (score mark line, line.content, line) := by
  unfold isCandidate at h
  unfold score at hlt
  simp only [scanLine, score]
  rw [if_pos h]
  rw [if_pos hlt]

lemma foldl_scanLine_no_cand {mark : SelectionMark} :
    ∀ (ls : List TextLine) (acc : Option (ℚ × String × TextLine)),
      (∀ l ∈ ls, ¬ isCandidate mark l) →
      ls.foldl (scanLine mark) acc = acc := by
  intro ls
  induction ls with
  | nil => intro acc _; rfl
  | cons l ls ih =>
      intro acc h
      simp only [List.foldl_cons]
      rw [scanLine_not_cand (h l (List.mem_cons_self l ls)) acc]
      exact ih acc (fun x hx => h x (List.mem_cons_of_mem l hx))

lemma foldl_scanLine_keep {mark : SelectionMark} {w : TextLine} :
    ∀ (ls : List TextLine),
      (∀ l ∈ ls, isCandidate mark l → score mark w ≤ score mark l) →
      ls.foldl (scanLine mark) (some (score mark w, w.content, w)) =
        some (score mark w, w.content, w) := by
  intro ls
  induction ls with
  | nil => intro _; rfl
  | cons l ls ih =>
      intro h
      simp only [List.foldl_cons]
      by_cases hc : isCandidate mark l
      · rw [scanLine_some_keep hc (not_lt.mpr (h l (List.mem_cons_self l ls) hc))]
        exact ih (fun x hx hcx => h x (List.mem_cons_of_mem l hx) hcx)
      · rw [scanLine_not_cand hc]
        exact ih (fun x hx hcx => h x (List.mem_cons_of_mem l hx) hcx)

lemma foldl_scanLine_above {mark : SelectionMark} {b : ℚ} :
    ∀ (ls : List TextLine) (acc : Option (ℚ × String × TextLine)),
      (∀ l ∈ ls, isCandidate mark l → b < score mark l) →
      (acc = none ∨ ∃ d t u, acc = some (d, t, u) ∧ b < d) →
      (ls.foldl (scanLine mark) acc = none ∨
        ∃ d t u, ls.foldl (scanLine mark) acc = some (d, t, u) ∧ b < d) := by
  intro ls
  induction ls with
  | nil => intro acc _ hacc; simpa using hacc
  | cons l ls ih =>
      intro acc h hacc
      simp only [List.foldl_cons]
      by_cases hc : isCandidate mark l
      · have hbl : b < score mark l := h l (List.mem_cons_self l ls) hc
        rcases hacc with h0 | ⟨d, t, u, hdu, hbd⟩
        · subst h0
          rw [scanLine_none_cand hc]
          exact ih _ (fun x hx hcx => h x (List.mem_cons_of_mem l hx) hcx)
            (Or.inr ⟨_, _, _, rfl, hbl⟩)
        · subst hdu
          by_cases hlt : score mark l < d
          · rw [scanLine_some_repl hc hlt]
            exact ih _ (fun x hx hcx => h x (List.mem_cons_of_mem l hx) hcx)
              (Or.inr ⟨_, _, _, rfl, hbl⟩)
          · rw [scanLine_some_keep hc hlt]
            exact ih _ (fun x hx hcx => h x (List.mem_cons_of_mem l hx) hcx)
              (Or.inr ⟨_, _, _, rfl, hbd⟩)
      · rw [scanLine_not_cand hc]
        exact ih _ (fun x hx hcx => h x (List.mem_cons_of_mem l hx) hcx) hacc

lemma bestMatch_of_winner {mark : SelectionMark} {lines : List TextLine} {w : TextLine}
    (hw : IsWinner mark lines w) :
    bestMatch mark lines = some (score mark w, w.content, w) := by
  obtain ⟨pre, post, rfl, hcw, hpre, hpost⟩ := hw
  unfold bestMatch
  rw [List.foldl_append]
  have h1 := foldl_scanLine_above pre none hpre (Or.inl rfl)
  simp only [List.foldl_cons]
  rcases h1 with h0 | ⟨d, t, u, hdu, hbd⟩
  · rw [h0, scanLine_none_cand hcw]
    exact foldl_scanLine_keep post hpost
  · rw [hdu, scanLine_some_repl hcw hbd]
    exact foldl_scanLine_keep post hpost

lemma winner_score_le {mark : SelectionMark} {lines : List TextLine} {w : TextLine}
    (hw : IsWinner mark lines w) :
    ∀ c ∈ lines, isCandidate mark c → score mark w ≤ score mark c := by
  obtain ⟨pre, post, rfl, hcw, hpre, hpost⟩ := hw
  intro c hc hcand
  rcases List.mem_append.mp hc with h | h
  · exact le_of_lt (hpre c h hcand)
  · rcases List.mem_cons.mp h with h | h
    · subst h; exact le_refl _
    · exact hpost c h hcand

lemma exists_winner {mark : SelectionMark} :
    ∀ {lines : List TextLine}, (∃ l ∈ lines, isCandidate mark l) →
      ∃ w, IsWinner mark lines w := by
  intro lines
  induction lines with
  | nil => rintro ⟨l, hl, _⟩; exact absurd hl (List.not_mem_nil l)
  | cons a ls ih =>
      intro h
      by_cases hls : ∃ l ∈ ls, isCandidate mark l
      · obtain ⟨w, hw⟩ := ih hls
        have hwle := winner_score_le hw
        obtain ⟨pre, post, hdec, hcw, hpre, hpost⟩ := hw
        by_cases ha : isCandidate mark a
        · by_cases hle : score mark a ≤ score mark w
          · refine ⟨a, [], ls, rfl, ha, ?_, ?_⟩
            · intro l hl; exact absurd hl (List.not_mem_nil l)
            · intro l hl hcl; exact le_trans hle (hwle l hl hcl)
          · refine ⟨w, a :: pre, post, by rw [hdec, List.cons_append], hcw, ?_, hpost⟩
            intro l hl hcl
            rcases List.mem_cons.mp hl with h1 | h1
            · subst h1; exact lt_of_not_ge hle
            · exact hpre l h1 hcl
        · refine ⟨w, a :: pre, post, by rw [hdec, List.cons_append], hcw, ?_, hpost⟩
          intro l hl hcl
          rcases List.mem_cons.mp hl with h1 | h1
          · subst h1; exact absurd hcl ha
          · exact hpre l h1 hcl
      · obtain ⟨l, hl, hcl⟩ := h
        rcases List.mem_cons.mp hl with h1 | h1
        · subst h1
          refine ⟨l, [], ls, rfl, hcl, ?_, ?_⟩
          · intro x hx; exact absurd hx (List.not_mem_nil x)
          · intro x hx hcx; exact absurd ⟨x, hx, hcx⟩ hls
        · exact absurd ⟨l, h1, hcl⟩ hls

lemma reorder_nil (width : ℚ) : reorder [] width = [] := by
  simp [reorder]

lemma extrair_no_selected (page : Page)
    (h : ∀ m ∈ page.selection_marks, m.state ≠ "selected") :
    extrair_exames_do_documento (.success [page]) = .ok [] := by
  have hassoc : associate page.selection_marks page.lines = [] := by
    unfold associate
    split
    · rfl
    · apply List.filterMap_eq_nil_iff.mpr
      intro m hm
      unfold associateMark
      rw [if_neg (h m hm)]
  simp [extrair_exames_do_documento, hassoc, reorder_nil]

lemma splitNlChars_ne_nil (l : List Char) : splitNlChars l ≠ [] := by
  cases l with
  | nil => simp [splitNlChars]
  | cons c cs =>
      simp only [splitNlChars]
      split
      · simp
      · split
        · simp
        · simp

lemma joinNlChars_splitNlChars (l : List Char) :
    joinNlChars (splitNlChars l) = l := by
  induction l with
  | nil => rfl
  | cons c cs ih =>
      simp only [splitNlChars]
      by_cases hc : c = '\n'
      · rw [if_pos hc]
        obtain ⟨h, t, ht⟩ := List.exists_cons_of_ne_nil (splitNlChars_ne_nil cs)
        rw [ht]
        rw [ht] at ih
        simp only [joinNlChars, List.nil_append]
        rw [ih, hc]
      · rw [if_neg hc]
        obtain ⟨h, t, ht⟩ := List.exists_cons_of_ne_nil (splitNlChars_ne_nil cs)
        rw [ht]
        rw [ht] at ih
        cases t with
        | nil => simp only [joinNlChars] at ih ⊢; rw [ih]
        | cons t2 ts =>
            simp only [joinNlChars, List.cons_append] at ih ⊢
            rw [ih]

lemma joinNl_pySplitNl (s : String) : joinNl (pySplitNl s) = s := by
  unfold joinNl pySplitNl
  rw [List.map_map]
  have : (String.data ∘ fun l => (⟨l⟩ : String)) = id := by
    funext l; rfl
  rw [this, List.map_id, joinNlChars_splitNlChars]

lemma extrair_paginaUmaLinha :
    extrair_exames_do_documento (.success [paginaUmaLinha]) = .ok ["Hemograma"] := by
  norm_num [extrair_exames_do_documento, paginaUmaLinha, associate,
    List.filterMap, associateMark, bestMatch, scanLine, reorder]
  simp

/-! ## The claims -/

/-- C1 (amended): for every selected mark having at least one candidate
line, there is a winning candidate; when its content is non-empty, the
associator emits exactly the item carrying that content at the winning
line's position. -/
theorem claim1_association_winner (mark : SelectionMark) (lines : List TextLine)
    (hsel : mark.state = "selected")
    (hcand : ∃ l ∈ lines, isCandidate mark l) :
    ∃ w, IsWinner mark lines w ∧
      (w.content ≠ "" →
        associateMark lines mark = some ⟨w.content, w.x, w.y⟩) := by
  obtain ⟨w, hw⟩ := exists_winner hcand
  refine ⟨w, hw, fun hne => ?_⟩
  unfold associateMark
  rw [if_pos hsel, bestMatch_of_winner hw]
  simp [hne]

theorem claim1_witness :
    (∃ l ∈ [TextLine.mk 0 0 "Hemograma"], isCandidate ⟨0, 0, "selected"⟩ l) ∧
    ∃ w, IsWinner ⟨0, 0, "selected"⟩ [TextLine.mk 0 0 "Hemograma"] w ∧
      (w.content ≠ "" →
        associateMark [TextLine.mk 0 0 "Hemograma"] ⟨0, 0, "selected"⟩ =
          some ⟨w.content, w.x, w.y⟩) :=
  ⟨⟨⟨0, 0, "Hemograma"⟩, by simp, by norm_num [isCandidate]⟩,
    claim1_association_winner ⟨0, 0, "selected"⟩ [⟨0, 0, "Hemograma"⟩] rfl
      ⟨⟨0, 0, "Hemograma"⟩, by simp, by norm_num [isCandidate]⟩⟩

theorem claim1_counterexample :
    (SelectionMark.mk 0 0 "selected").state = "selected" ∧
    isCandidate ⟨0, 0, "selected"⟩ ⟨0, 0, ""⟩ ∧
    associateMark [⟨0, 0, ""⟩] ⟨0, 0, "selected"⟩ = none ∧
    associate [⟨0, 0, "selected"⟩] [⟨0, 0, ""⟩] = [] := by
  refine ⟨rfl, by norm_num [isCandidate], ?_, ?_⟩
  · norm_num [associateMark, bestMatch, scanLine]
  · norm_num [associate, List.filterMap, associateMark, bestMatch, scanLine]

/-- C2: the reconstructor's output is the left column (pos_x below the
midpoint) sorted ascending by pos_y, followed by the right column sorted
ascending by pos_y — a concatenation, never an interleaving. -/
theorem claim2_two_column_order (items : List AssociatedItem) (width : ℚ) :
    ∃ esq dir : List AssociatedItem,
      reorder items width =
        esq.map AssociatedItem.texto ++ dir.map AssociatedItem.texto ∧
      esq.Perm (items.filter (fun i => i.pos_x < width / 2)) ∧
      dir.Perm (items.filter (fun i => i.pos_x ≥ width / 2)) ∧
      List.Sorted (fun a b : AssociatedItem => a.pos_y ≤ b.pos_y) esq ∧
      List.Sorted (fun a b : AssociatedItem => a.pos_y ≤ b.pos_y) dir := by
  have htrans : ∀ a b c : AssociatedItem,
      byY a b = true → byY b c = true → byY a c = true := by
    intro a b c hab hbc
    simp only [byY, decide_eq_true_eq] at *
    exact le_trans hab hbc
  have htotal : ∀ a b : AssociatedItem, (byY a b || byY b a) = true := by
    intro a b
    simp only [byY, Bool.or_eq_true, decide_eq_true_eq]
    exact le_total a.pos_y b.pos_y
  refine ⟨(items.filter (fun i => i.pos_x < width / 2)).mergeSort byY,
          (items.filter (fun i => i.pos_x ≥ width / 2)).mergeSort byY,
          ?_, List.mergeSort_perm _ _, List.mergeSort_perm _ _, ?_, ?_⟩
  · simp only [reorder, List.map_append]
  · exact List.Pairwise.imp (fun h => by simpa [byY] using h)
      (List.sorted_mergeSort htrans htotal _)
  · exact List.Pairwise.imp (fun h => by simpa [byY] using h)
      (List.sorted_mergeSort htrans htotal _)

/-- C3: whenever the extracted exam list is empty, the endpoint answers 200
with status Concluído and the no-items message, and the resolver is never
called; moreover a page without any selected mark always extracts an empty
exam list. -/
theorem claim3_empty_list_shortcircuit (ext : Externals)
    (dataEntries docEntries : List (String × PyVal)) (s : String) (bs : List Nat)
    (h1 : (PyVal.pydict dataEntries).truthy = true)
    (h2 : (dictGet dataEntries "attendant_id").truthy = true)
    (h3 : (dictGet dataEntries "pixeon_id").truthy = true)
    (hdoc : dictGet dataEntries "document" = .pydict docEntries)
    (h4 : (PyVal.pydict docEntries).truthy = true)
    (h5 : (dictGet docEntries "type").truthy = true)
    (hcont : dictGet docEntries "content" = .pystr s)
    (h6 : (PyVal.pystr s).truthy = true)
    (hascii : s.data.all pyIsAscii = true)
    (h7 : ext.binasciiDecode s = .ok bs)
    (h8 : extrair_exames_do_documento
        (ext.ocr bs (contentType (dictGet docEntries "type"))) = .ok []) :
    processar_documento_endpoint ext (.pydict dataEntries) =
      ⟨⟨.concluido (dictGet dataEntries "attendant_id")
          (dictGet dataEntries "pixeon_id")
          "Nenhum exame selecionado foi encontrado no documento.", 200⟩, 1, 0⟩ ∧
    ∀ page : Page, (∀ m ∈ page.selection_marks, m.state ≠ "selected") →
      extrair_exames_do_documento (.success [page]) = .ok [] := by
  refine ⟨?_, fun page hp => extrair_no_selected page hp⟩
  simp only [processar_documento_endpoint]
  simp [h1, h2, h3, hdoc, h4, h5, hcont, h6, hascii, h7, h8]
theorem claim3_witness :
    processar_documento_endpoint extSemSelecionado (.pydict entriesComDocumento) =
      ⟨⟨.concluido (dictGet entriesComDocumento "attendant_id")
          (dictGet entriesComDocumento "pixeon_id")
          "Nenhum exame selecionado foi encontrado no documento.", 200⟩, 1, 0⟩ ∧
    ∀ page : Page, (∀ m ∈ page.selection_marks, m.state ≠ "selected") →
      extrair_exames_do_documento (.success [page]) = .ok [] :=
  claim3_empty_list_shortcircuit extSemSelecionado entriesComDocumento docPng
    "QQ==" [65] rfl rfl rfl rfl rfl rfl rfl rfl rfl rfl
    (extrair_no_selected ⟨100, [⟨0, 0, "unselected"⟩], [⟨0, 0, "Hemograma"⟩]⟩
      (by simp))

/-- C4 (amended): on the success path the returned result lines are the
resolver's raw text first stripped of leading and trailing whitespace and
then split on newline boundaries, so joining them with newlines reconstructs
the stripped text (not necessarily the raw text). -/
theorem claim4_success_line_split (ext : Externals)
    (dataEntries docEntries : List (String × PyVal)) (s : String)
    (bs : List Nat) (exames : List String) (raw : String)
    (h1 : (PyVal.pydict dataEntries).truthy = true)
    (h2 : (dictGet dataEntries "attendant_id").truthy = true)
    (h3 : (dictGet dataEntries "pixeon_id").truthy = true)
    (hdoc : dictGet dataEntries "document" = .pydict docEntries)
    (h4 : (PyVal.pydict docEntries).truthy = true)
    (h5 : (dictGet docEntries "type").truthy = true)
    (hcont : dictGet docEntries "content" = .pystr s)
    (h6 : (PyVal.pystr s).truthy = true)
    (hascii : s.data.all pyIsAscii = true)
    (h7 : ext.binasciiDecode s = .ok bs)
    (h8 : extrair_exames_do_documento
        (ext.ocr bs (contentType (dictGet docEntries "type"))) =
        .ok exames)
    (h9 : exames ≠ [])
    (h10 : ext.nlp exames = .ok raw) :
    processar_documento_endpoint ext (.pydict dataEntries) =
      ⟨⟨.sucesso (dictGet dataEntries "attendant_id")
          (dictGet dataEntries "pixeon_id")
          (pySplitNl (pyStrip raw)), 200⟩, 1, 1⟩ ∧
    joinNl (pySplitNl (pyStrip raw)) = pyStrip raw := by
  refine ⟨?_, joinNl_pySplitNl (pyStrip raw)⟩
  obtain ⟨e, r, rfl⟩ := List.exists_cons_of_ne_nil h9
  simp only [processar_documento_endpoint]
  simp [h1, h2, h3, hdoc, h4, h5, hcont, h6, hascii, h7, h8, h10]
theorem claim4_counterexample :
    (processar_documento_endpoint extUmaLinha (.pydict entriesComDocumento)).resp.body =
      .sucesso (.pystr "a1") (.pystr "p1") ["a"] ∧
    pySplitNl "a\n" = ["a", ""] ∧
    joinNl ["a"] ≠ "a\n" := by
  refine ⟨?_, by simp [pySplitNl, splitNlChars], by simp [joinNl, joinNlChars]⟩
  simp only [processar_documento_endpoint]
  simp [entriesComDocumento, docPng, dictGet, PyVal.truthy, extUmaLinha,
    extrair_paginaUmaLinha]
  rfl
theorem claim4_witness :
    processar_documento_endpoint extUmaLinha (.pydict entriesComDocumento) =
      ⟨⟨.sucesso (dictGet entriesComDocumento "attendant_id")
          (dictGet entriesComDocumento "pixeon_id")
          (pySplitNl (pyStrip "a\n")), 200⟩, 1, 1⟩ ∧
    joinNl (pySplitNl (pyStrip "a\n")) = pyStrip "a\n" :=
  claim4_success_line_split extUmaLinha entriesComDocumento docPng "QQ==" [65]
    ["Hemograma"] "a\n" rfl rfl rfl rfl rfl rfl rfl rfl rfl rfl
    extrair_paginaUmaLinha (by simp) rfl

/-- C5 (amended): with every field present and truthy, an ASCII content
string whose base64 payload raises a `binascii.Error` yields a 400 response
before any external call; a non-ASCII content string — equally not valid
base64 — instead raises a `ValueError` that line 168 does not catch, and the
endpoint answers 500 (see the counterexample). -/
theorem claim5_bad_base64 (ext : Externals)
    (dataEntries docEntries : List (String × PyVal)) (s e : String)
    (h1 : (PyVal.pydict dataEntries).truthy = true)
    (h2 : (dictGet dataEntries "attendant_id").truthy = true)
    (h3 : (dictGet dataEntries "pixeon_id").truthy = true)
    (hdoc : dictGet dataEntries "document" = .pydict docEntries)
    (h4 : (PyVal.pydict docEntries).truthy = true)
    (h5 : (dictGet docEntries "type").truthy = true)
    (hcont : dictGet docEntries "content" = .pystr s)
    (h6 : (PyVal.pystr s).truthy = true)
    (hascii : s.data.all pyIsAscii = true)
    (h7 : ext.binasciiDecode s = .error e) :
    processar_documento_endpoint ext (.pydict dataEntries) =
      ⟨⟨.errorMsg ("String base64 inválida. Detalhes: " ++ e), 400⟩, 0, 0⟩ := by
  simp only [processar_documento_endpoint]
  simp [h1, h2, h3, hdoc, h4, h5, hcont, h6, hascii, h7]
theorem claim5_witness :
    processar_documento_endpoint extDecodeFalha (.pydict entriesValida) =
      ⟨⟨.errorMsg ("String base64 inválida. Detalhes: " ++
          "Incorrect padding"), 400⟩, 0, 0⟩ :=
  claim5_bad_base64 extDecodeFalha entriesValida docMalPreenchido "QQ="
    "Incorrect padding" rfl rfl rfl rfl rfl rfl rfl rfl rfl rfl
theorem claim5_counterexample :
    (PyVal.pydict entriesNaoAscii).truthy = true ∧
    (dictGet entriesNaoAscii "attendant_id").truthy = true ∧
    (dictGet entriesNaoAscii "pixeon_id").truthy = true ∧
    (dictGet entriesNaoAscii "document").truthy = true ∧
    (dictGet docNaoAscii "type").truthy = true ∧
    (dictGet docNaoAscii "content").truthy = true ∧
    processar_documento_endpoint extTrivial (.pydict entriesNaoAscii) =
      ⟨⟨.uncaughtException
          "string argument should contain only ASCII characters", 500⟩, 0, 0⟩ :=
  ⟨rfl, rfl, rfl, rfl, rfl, rfl, rfl⟩

/-- C6: when the layout service returns no page, the extraction returns an
empty exam list as a normal (non-error) outcome, and the endpoint answers
200 with status Concluído without calling the resolver. -/
theorem claim6_no_page (ext : Externals)
    (dataEntries docEntries : List (String × PyVal)) (s : String) (bs : List Nat)
    (h1 : (PyVal.pydict dataEntries).truthy = true)
    (h2 : (dictGet dataEntries "attendant_id").truthy = true)
    (h3 : (dictGet dataEntries "pixeon_id").truthy = true)
    (hdoc : dictGet dataEntries "document" = .pydict docEntries)
    (h4 : (PyVal.pydict docEntries).truthy = true)
    (h5 : (dictGet docEntries "type").truthy = true)
    (hcont : dictGet docEntries "content" = .pystr s)
    (h6 : (PyVal.pystr s).truthy = true)
    (hascii : s.data.all pyIsAscii = true)
    (h7 : ext.binasciiDecode s = .ok bs)
    (h8 : ext.ocr bs (contentType (dictGet docEntries "type")) =
        .success []) :
    extrair_exames_do_documento (.success []) = .ok [] ∧
    processar_documento_endpoint ext (.pydict dataEntries) =
      ⟨⟨.concluido (dictGet dataEntries "attendant_id")
          (dictGet dataEntries "pixeon_id")
          "Nenhum exame selecionado foi encontrado no documento.", 200⟩, 1, 0⟩ := by
  refine ⟨rfl, ?_⟩
  simp only [processar_documento_endpoint]
  simp [h1, h2, h3, hdoc, h4, h5, hcont, h6, hascii, h7, h8,
    extrair_exames_do_documento]
theorem claim6_witness :
    extrair_exames_do_documento (.success []) = .ok [] ∧
    processar_documento_endpoint extSemPagina (.pydict entriesComDocumento) =
      ⟨⟨.concluido (dictGet entriesComDocumento "attendant_id")
          (dictGet entriesComDocumento "pixeon_id")
          "Nenhum exame selecionado foi encontrado no documento.", 200⟩, 1, 0⟩ :=
  claim6_no_page extSemPagina entriesComDocumento docPng "QQ==" [65]
    rfl rfl rfl rfl rfl rfl rfl rfl rfl rfl rfl

/-- C7: a selected mark with no text line within the vertical threshold
produces no associated item (a silent drop, not an error). -/
theorem claim7_no_candidate_drop (mark : SelectionMark) (lines : List TextLine)
    (hsel : mark.state = "selected")
    (h : ∀ l ∈ lines, ¬ isCandidate mark l) :
    associateMark lines mark = none := by
  unfold associateMark
  rw [if_pos hsel]
  unfold bestMatch
  rw [foldl_scanLine_no_cand lines none h]

theorem claim7_witness :
    associateMark [⟨0, 50, "Hemograma"⟩] ⟨0, 0, "selected"⟩ = none :=
  claim7_no_candidate_drop ⟨0, 0, "selected"⟩ [⟨0, 50, "Hemograma"⟩] rfl
    (by norm_num [isCandidate])

theorem claim8_counterexample :
    score markExemplo linhaLonge ≠ 79 / 2 ∧ score markExemplo linhaLonge = 99 / 2 := by
  constructor <;> norm_num [score, markExemplo, linhaLonge]
/-- C8 (amended): with a selected mark at (5,100) and lines at (5,100) and
(500,100), the association picks the line at (5,100): its score is 0, below
the far line's score 49.5. -/
theorem claim8_example_selects_near :
    associate [markExemplo] [linhaPerto, linhaLonge] = [⟨"Exame A", 5, 100⟩] ∧
    score markExemplo linhaPerto = 0 ∧
    score markExemplo linhaLonge = 99 / 2 ∧
    score markExemplo linhaPerto < score markExemplo linhaLonge := by
  refine ⟨?_, ?_, ?_, ?_⟩
  · norm_num [associate, List.filterMap, associateMark, bestMatch, scanLine,
      markExemplo, linhaPerto, linhaLonge]
    simp
  · norm_num [score, markExemplo, linhaPerto]
  · norm_num [score, markExemplo, linhaLonge]
  · norm_num [score, markExemplo, linhaPerto, linhaLonge]

/-- C9: when the winning candidate of a selected mark has empty content, the
truthiness check drops the mark entirely even though a candidate within the
threshold exists. -/
theorem claim9_empty_winner_dropped (mark : SelectionMark) (lines : List TextLine)
    (w : TextLine) (hsel : mark.state = "selected")
    (hw : IsWinner mark lines w) (hempty : w.content = "") :
    associateMark lines mark = none := by
  unfold associateMark
  rw [if_pos hsel, bestMatch_of_winner hw]
  simp [hempty]

theorem claim9_witness :
    associateMark [⟨0, 0, ""⟩] ⟨0, 0, "selected"⟩ = none :=
  claim9_empty_winner_dropped ⟨0, 0, "selected"⟩ [⟨0, 0, ""⟩] ⟨0, 0, ""⟩ rfl
    ⟨[], [], rfl, by norm_num [isCandidate],
      fun l hl => absurd hl (List.not_mem_nil l),
      fun l hl => absurd hl (List.not_mem_nil l)⟩ rfl

/-- C10: for a JSON-object request body, the endpoint rejects with 400
whenever any of the five required fields is falsy (absent or
present-but-falsy — `0`, `""`, `{}`, `None`); no OCR or resolver call is
made.  The `type`/`content` disjunct requires `document` to be a dict, since
`.get` on a truthy non-dict `document` raises instead of returning 400. -/
theorem claim10_falsy_fields (ext : Externals)
    (dataEntries : List (String × PyVal))
    (h : (dictGet dataEntries "attendant_id").truthy = false ∨
         (dictGet dataEntries "pixeon_id").truthy = false ∨
         (dictGet dataEntries "document").truthy = false ∨
         (∃ docEntries, dictGet dataEntries "document" = .pydict docEntries ∧
           ((dictGet docEntries "type").truthy = false ∨
            (dictGet docEntries "content").truthy = false))) :
    (processar_documento_endpoint ext (.pydict dataEntries)).resp.code = 400 ∧
    (processar_documento_endpoint ext (.pydict dataEntries)).ocrCalls = 0 ∧
    (processar_documento_endpoint ext (.pydict dataEntries)).nlpCalls = 0 := by
  by_cases h1 : (PyVal.pydict dataEntries).truthy = true
  · by_cases hall : ((dictGet dataEntries "attendant_id").truthy &&
        (dictGet dataEntries "pixeon_id").truthy &&
        (dictGet dataEntries "document").truthy) = true
    · rcases h with h | h | h | ⟨docEntries, hdoc, h⟩
      · rw [h] at hall; simp at hall
      · rw [h] at hall; simp at hall
      · rw [h] at hall; simp at hall
      · rw [hdoc] at hall
        rcases h with h | h <;>
        · simp only [processar_documento_endpoint]
          simp [h1, hall, hdoc, h]
    · simp only [processar_documento_endpoint]
      simp [h1, hall]
  · simp only [processar_documento_endpoint]
    simp [h1]
theorem claim10_witness :
    (processar_documento_endpoint extTrivial (.pydict camposFalsy)).resp.code = 400 ∧
    (processar_documento_endpoint extTrivial (.pydict camposFalsy)).ocrCalls = 0 ∧
    (processar_documento_endpoint extTrivial (.pydict camposFalsy)).nlpCalls = 0 :=
  claim10_falsy_fields extTrivial camposFalsy (Or.inl rfl)
